import Mathlib

/-!
Verification of the munin-enviro plugin (src/enviro.py).

The script is modelled with exact rational arithmetic (ℚ) in place of
Python floats, list-of-line output in place of stdout, and a call-indexed
sequence `f : ℕ → ℚ` in place of a zero-argument sensor read operation:
the k-th invocation of the read operation returns `f k`.
-/

namespace Enviro

/-- Number of samples to take per measurement (`samples = 10`, enviro.py:63). -/
def samples : ℕ := 10

/-- `avg(values)` (enviro.py:73-74): `sum(values) / float(len(values))`. -/
def avg (values : List ℚ) : ℚ := values.sum / (values.length : ℚ)

/-- The loop body of `sample` (enviro.py:79-81): each iteration drops the
oldest value (`values[1:]`) and appends a fresh reading.  The pair carries
the current window and the index of the next call to the read operation;
`k` is the number of iterations remaining. -/
def sampleLoop (f : ℕ → ℚ) : ℕ → List ℚ × ℕ → List ℚ × ℕ
  | 0, p => p
  | Nat.succ k, p => sampleLoop f k (p.1.tail ++ [f p.2], p.2 + 1)

/-- `sample(func)` (enviro.py:77-82), generalised over the sample count `N`
(the source fixes `N = samples`): pre-fill the window with `N` copies of one
initial reading (`[func()] * samples`), then iterate `N` times, and return
the average of the final window. -/
def sample (N : ℕ) (f : ℕ → ℚ) : ℚ :=
  avg (sampleLoop f N (List.replicate N (f 0), 1)).1

/-- How many times `sample` invokes the read operation: the final value of
the call counter threaded through `sampleLoop` (the pre-fill call is call 0,
so the counter starts at 1). -/
def sampleCalls (N : ℕ) (f : ℕ → ℚ) : ℕ :=
  (sampleLoop f N (List.replicate N (f 0), 1)).2

/-- `correct_temperature` (enviro.py:85-86). -/
def correct_temperature (temperature cpu_temperature : ℚ) : ℚ :=
  temperature - ((cpu_temperature - temperature) / 2.25)

/-- `correct_humidity` (enviro.py:89-92). -/
def correct_humidity (humidity temperature corr_temperature : ℚ) : ℚ :=
  let dewpoint := temperature - ((100 - humidity) / 5)
  let corr_humidity := 100 - (5 * (corr_temperature - dewpoint))
  min 100 corr_humidity

/-- One line of the plugin's stdout, one constructor per distinct `print`
in the source; `render` below gives the actual text. -/
inductive Line
  | graph (key : String)
  | value (key : String) (v : ℚ)
  | blank
  | title (t : String)
  | vlabel (v : String)
  | category
  | args (zero_limit : Bool)
  | label (key t : String)
  | text (s : String)
  deriving DecidableEq, Repr

/-- Zero-pad a digit string on the left to 8 characters. -/
def padLeft8 (s : String) : String :=
  String.mk (List.replicate (8 - s.length) '0') ++ s

/-- Python's fixed-point formatting of a float to 8 decimal places
(enviro.py:182), modelled on ℚ: round the value scaled by 10^8 to an
integer and print sign, integer part, dot and the 8 fractional digits.
(Python rounds ties of the underlying binary float to even; tie behavior
is irrelevant to the claims.) -/
def fmt8 (q : ℚ) : String :=
  let n : ℤ := Int.fdiv (2 * q.num * 100000000 + (q.den : ℤ)) (2 * (q.den : ℤ))
  let sign := if n < 0 then "-" else ""
  let m := n.natAbs
  sign ++ toString (m / 100000000) ++ "." ++ padLeft8 (toString (m % 100000000))

/-- The text of each output line (enviro.py:177-182, 229-241, 281). -/
def render : Line → String
  | Line.graph key => "multigraph enviro_" ++ key
  | Line.value key v => key ++ ".value " ++ fmt8 v
  | Line.blank => ""
  | Line.title t => "graph_title " ++ t
  | Line.vlabel v => "graph_vlabel " ++ v
  | Line.category => "graph_category environment"
  | Line.args true => "graph_args --base 1000 --lower-limit 0"
  | Line.args false => "graph_args --base 1000"
  | Line.label key t => key ++ ".label " ++ t
  | Line.text s => s

/-- Is this line a group header (`multigraph enviro_...`)? -/
def lineIsGraph : Line → Bool
  | Line.graph _ => true
  | _ => false

/-- Is this line a metric value line (`key.value ...`)? -/
def lineIsValue : Line → Bool
  | Line.value _ _ => true
  | _ => false

/-- Is this line a `graph_args` line? -/
def lineIsArgs : Line → Bool
  | Line.args _ => true
  | _ => false

/-- `print_graph_value` (enviro.py:185-188): header, value, blank. -/
def print_graph_value (data : String → ℚ) (key : String) : List Line :=
  [Line.graph key, Line.value key (data key), Line.blank]

/-- The printing part of `fetch()` (enviro.py:199-227), given the computed
Reading Set `data` (metric name to averaged value).  Note the `noise`
group at the end is not followed by a blank line. -/
def fetchLines (data : String → ℚ) : List Line :=
  [Line.graph "temperature",
   Line.value "temperature" (data "temperature"),
   Line.value "raw_temperature" (data "raw_temperature"),
   Line.value "cpu_temperature" (data "cpu_temperature"),
   Line.blank] ++
  [Line.graph "humidity",
   Line.value "humidity" (data "humidity"),
   Line.value "raw_humidity" (data "raw_humidity"),
   Line.blank] ++
  print_graph_value data "pressure" ++
  print_graph_value data "altitude" ++
  print_graph_value data "light" ++
  [Line.graph "gas",
   Line.value "oxidising" (data "oxidising"),
   Line.value "reducing" (data "reducing"),
   Line.value "nh3" (data "nh3"),
   Line.blank] ++
  [Line.graph "noise",
   Line.value "low" (data "low"),
   Line.value "mid" (data "mid"),
   Line.value "high" (data "high"),
   Line.value "amp" (data "amp")]

/-- `print_graph_config` (enviro.py:229-237).  The Python parameter
`zero_limit` defaults to `False`. -/
def print_graph_config (key titl vlab : String) (zero_limit : Bool) : List Line :=
  [Line.graph key, Line.title titl, Line.vlabel vlab, Line.category,
   Line.args zero_limit]

/-- `print_value_config` (enviro.py:240-241). -/
def print_value_config (key titl : String) : List Line :=
  [Line.label key titl]

/-- The unconditional part of `config()` (enviro.py:244-273).  Every call
to `print_graph_config` in the source omits the `zero_limit` argument, so
each group gets the Python default `False`. -/
def configOnlyLines : List Line :=
  print_graph_config "temperature" "Temperature" "C" false ++
  print_value_config "temperature" "Temperature" ++
  print_value_config "raw_temperature" "Raw Temperature" ++
  print_value_config "cpu_temperature" "CPU Temperature" ++
  [Line.blank] ++
  print_graph_config "humidity" "Humidity" "%RH" false ++
  print_value_config "humidity" "Humidity" ++
  print_value_config "raw_humidity" "Raw Humidity" ++
  [Line.blank] ++
  print_graph_config "pressure" "Pressure" "hPa" false ++
  print_value_config "pressure" "Pressure" ++
  [Line.blank] ++
  print_graph_config "altitude" "Altitude" "m" false ++
  print_value_config "altitude" "Altitude" ++
  [Line.blank] ++
  print_graph_config "light" "Light" "Lux" false ++
  print_value_config "light" "Light" ++
  [Line.blank] ++
  print_graph_config "gas" "Gas" "kO" false ++
  print_value_config "oxidising" "Oxidising" ++
  print_value_config "reducing" "Reducing" ++
  print_value_config "nh3" "NH3" ++
  [Line.blank] ++
  print_graph_config "noise" "Noise" "amp" false ++
  print_value_config "low" "Low" ++
  print_value_config "mid" "Mid" ++
  print_value_config "high" "High" ++
  print_value_config "amp" "Amp" ++
  [Line.blank]

/-- `config()` (enviro.py:244-276): the config block, then a full
value-report pass exactly when the environment variable
MUNIN_CAP_DIRTYCONFIG (read with os.environ.get, hence an
`Option String`) equals the literal string "1". -/
def configLines (env : Option String) (data : String → ℚ) : List Line :=
  configOnlyLines ++ (if env = some "1" then fetchLines data else [])

/-- The first positional argument: `sys.argv[1]` when `len(sys.argv) > 1`
(enviro.py:280-282); `argv` includes the program name at position 0. -/
def arg1? (argv : List String) : Option String := (argv.drop 1).head?

/-- The top-level dispatch (enviro.py:279-285). -/
def main (argv : List String) (env : Option String) (data : String → ℚ) : List Line :=
  if arg1? argv = some "autoconf" then [Line.text "yes"]
  else if arg1? argv = some "config" then configLines env data
  else fetchLines data

/-- The unconditional `exit(0)` at the end of the script (enviro.py:287). -/
def exitCode : ℕ := 0

/-- Unfolding the sampling loop: after `k` iterations starting from window
`vs` (of length at least `k`) and call counter `c`, the window is `vs` with
its first `k` elements dropped followed by the readings of calls
`c, c+1, ..., c+k-1`, and the counter is `c + k`. -/
theorem sampleLoop_eq (f : ℕ → ℚ) :
    ∀ (k : ℕ) (vs : List ℚ) (c : ℕ), k ≤ vs.length →
      sampleLoop f k (vs, c) =
        (vs.drop k ++ (List.range k).map (fun i => f (c + i)), c + k) := by
  intro k
  induction k with
  | zero => intro vs c _; simp [sampleLoop]
  | succ k ih =>
    intro vs c hk
    have hvs : vs ≠ [] := by
      intro h; rw [h] at hk; simp at hk
    have hlen : k ≤ (vs.tail ++ [f c]).length := by
      rw [List.length_append, List.length_tail]
      simp only [List.length_singleton]
      omega
    rw [sampleLoop, ih (vs.tail ++ [f c]) (c + 1) hlen]
    have hdrop : (vs.tail ++ [f c]).drop k = vs.drop (k + 1) ++ [f c] := by
      have hk' : k ≤ vs.tail.length := by
        rw [List.length_tail]; omega
      rw [List.drop_append_of_le_length hk', List.drop_tail]
    rw [hdrop]
    simp only [Prod.mk.injEq]
    refine ⟨?_, by omega⟩
    rw [List.append_assoc]
    congr 1
    have hmap : (List.range (k + 1)).map (fun i => f (c + i)) =
        f c :: (List.range k).map (fun i => f (c + 1 + i)) := by
      rw [List.range_succ_eq_map, List.map_cons, List.map_map]
      simp only [Nat.add_zero]
      congr 1
      apply List.map_congr_left
      intro i _
      simp only [Function.comp_apply]
      congr 1
      omega
    rw [hmap, List.singleton_append]

/-- The window averaged by `sample N f` consists exactly of the readings of
calls `1, ..., N` (the pre-fill reading, call `0`, is fully evicted). -/
theorem sample_window (N : ℕ) (f : ℕ → ℚ) :
    sample N f = avg ((List.range N).map (fun i => f (i + 1))) := by
  unfold sample
  rw [sampleLoop_eq f N (List.replicate N (f 0)) 1 (by simp)]
  simp only [List.drop_replicate, Nat.sub_self, List.replicate_zero,
    List.nil_append]
  congr 1
  apply List.map_congr_left
  intro i _
  congr 1
  omega

/-- `sample` calls the read operation exactly `N + 1` times. -/
theorem sampleCalls_eq (N : ℕ) (f : ℕ → ℚ) : sampleCalls N f = N + 1 := by
  unfold sampleCalls
  rw [sampleLoop_eq f N (List.replicate N (f 0)) 1 (by simp)]
  omega

/-- Sum of a mapped range as a `Finset` sum. -/
theorem list_range_map_sum (g : ℕ → ℚ) (n : ℕ) :
    ((List.range n).map g).sum = ∑ i in Finset.range n, g i := by
  induction n with
  | zero => simp
  | succ n ih => rw [List.range_succ, Finset.sum_range_succ]; simp [ih]

/-- C1: for every sample count `N ≥ 1` and every sequence of readings, the
value returned by `sample` is the plain arithmetic mean of the last `N`
reads (the reads of calls `1, ..., N`, the pre-fill call `0` being evicted);
in particular a read operation returning the constant `v` on every call
samples to exactly `v`. -/
theorem sample_is_plain_mean (N : ℕ) (f : ℕ → ℚ) (hN : 1 ≤ N) :
    sample N f = (∑ i in Finset.range N, f (i + 1)) / (N : ℚ) ∧
    ∀ v : ℚ, sample N (fun _ => v) = v := by
  have hN0 : (N : ℚ) ≠ 0 := Nat.cast_ne_zero.mpr (by omega)
  constructor
  · rw [sample_window, avg, list_range_map_sum]
    simp
  · intro v
    rw [sample_window, avg]
    simp only [List.map_const', List.sum_replicate, List.length_replicate,
      List.length_range, smul_eq_mul]
    field_simp

/-- Witness for C1 at `N = 3` and a strictly increasing read sequence. -/
theorem sample_is_plain_mean_witness :
    1 ≤ 3 ∧
      (sample 3 (fun i => (i : ℚ)) = (∑ i in Finset.range 3, ((i + 1 : ℕ) : ℚ)) / (3 : ℚ) ∧
        ∀ v : ℚ, sample 3 (fun _ => v) = v) :=
  ⟨by decide, sample_is_plain_mean 3 (fun i => (i : ℚ)) (by decide)⟩

/-- C9: for every sample count `N ≥ 1`, `sample` invokes the read operation
exactly `N + 1` times, and the returned average depends only on the reads of
calls `1, ..., N`: two read sequences agreeing there sample identically, so
the pre-fill reading (call `0`) never affects the result. -/
theorem sample_calls_prefill_evicted (N : ℕ) (f g : ℕ → ℚ) (_hN : 1 ≤ N)
    (hfg : ∀ i, 1 ≤ i → i ≤ N → f i = g i) :
    sampleCalls N f = N + 1 ∧ sample N f = sample N g := by
  refine ⟨sampleCalls_eq N f, ?_⟩
  rw [sample_window, sample_window]
  congr 1
  apply List.map_congr_left
  intro i hi
  have hiN : i < N := List.mem_range.mp hi
  exact hfg (i + 1) (by omega) (by omega)

/-- Witness for C9 at `N = 2`, with two read sequences that differ only in
the pre-fill reading (call `0`). -/
theorem sample_calls_prefill_evicted_witness :
    sampleCalls 2 (fun i => (i : ℚ)) = 2 + 1 ∧
      sample 2 (fun i => (i : ℚ)) = sample 2 (fun i => if i = 0 then 99 else (i : ℚ)) :=
  sample_calls_prefill_evicted 2 (fun i => (i : ℚ)) (fun i => if i = 0 then 99 else (i : ℚ))
    (by decide)
    (fun i h1 _ => by
      show (i : ℚ) = if i = 0 then 99 else (i : ℚ)
      rw [if_neg (by omega : ¬ i = 0)])

/-- C2: `correct_temperature(T_raw, T_cpu) = T_raw - (T_cpu - T_raw) / 2.25`;
when `T_cpu = T_raw` the result is `T_raw` exactly, and
`correct_temperature 20 42.5 = 10`. -/
theorem correct_temperature_spec :
    (∀ t c : ℚ, correct_temperature t c = t - (c - t) / 2.25) ∧
    (∀ t : ℚ, correct_temperature t t = t) ∧
    correct_temperature 20 42.5 = 10 := by
  refine ⟨fun t c => rfl, fun t => ?_, ?_⟩
  · unfold correct_temperature
    ring
  · unfold correct_temperature
    norm_num

/-- C3: `correct_humidity` computes the dewpoint
`D = T_raw - (100 - H_raw) / 5` and returns `100 - 5 * (T_corr - D)` clamped
to a maximum of 100; the result is always `≤ 100`;
`correct_humidity 100 20 20 = 100`; and there is no minimum clamp (the
result is strictly negative for some inputs). -/
theorem correct_humidity_spec :
    (∀ h t tc : ℚ,
        correct_humidity h t tc = min 100 (100 - 5 * (tc - (t - (100 - h) / 5))) ∧
        correct_humidity h t tc ≤ 100) ∧
    correct_humidity 100 20 20 = 100 ∧
    (∃ h t tc : ℚ, correct_humidity h t tc < 0) := by
  refine ⟨fun h t tc => ⟨rfl, min_le_left _ _⟩, ?_, ⟨0, 0, 100, ?_⟩⟩
  · show min 100 (100 - 5 * ((20 : ℚ) - (20 - (100 - 100) / 5))) = 100
    norm_num
  · show min 100 (100 - 5 * ((100 : ℚ) - (0 - (100 - 0) / 5))) < 0
    norm_num

/-- C10: `correct_humidity(H_raw, T_raw, T_corr)` has the closed form
`min 100 (H_raw + 5 * (T_raw - T_corr))`; when `T_corr = T_raw` it returns
`min 100 H_raw`; and for some inputs the result is strictly negative. -/
theorem correct_humidity_closed_form :
    (∀ h t tc : ℚ, correct_humidity h t tc = min 100 (h + 5 * (t - tc))) ∧
    (∀ h t : ℚ, correct_humidity h t t = min 100 h) ∧
    (∃ h t tc : ℚ, correct_humidity h t tc < 0) := by
  have key : ∀ h t tc : ℚ, correct_humidity h t tc = min 100 (h + 5 * (t - tc)) := by
    intro h t tc
    show min 100 (100 - 5 * (tc - (t - (100 - h) / 5))) = min 100 (h + 5 * (t - tc))
    congr 1
    ring
  refine ⟨key, fun h t => ?_, ⟨0, 0, 100, ?_⟩⟩
  · rw [key]
    norm_num
  · show min 100 (100 - 5 * ((100 : ℚ) - (0 - (100 - 0) / 5))) < 0
    norm_num

/-- C4 is false on the code: the config output contains a `graph_args`
line with `zero_limit = false`, whose text is plain
`graph_args --base 1000`, not the lower-limit-zero directive. -/
theorem config_lower_limit_refuted :
    Line.args false ∈ configLines none (fun _ => 0) ∧
    lineIsArgs (Line.args false) = true ∧
    render (Line.args false) ≠ "graph_args --base 1000 --lower-limit 0" := by
  exact ⟨by decide, rfl, by decide⟩

/-- C4 (amended): in config/discovery mode every one of the seven metric
groups' config blocks has the plain base-1000 graph-scaling directive
without the lower-limit-zero option: the output's `graph_args` lines are
exactly seven copies of `Line.args false`, each rendering to
`graph_args --base 1000` (the source never passes `zero_limit=True`). -/
theorem config_args_all_plain_base1000 (env : Option String) (data : String → ℚ) :
    (configLines env data).filter lineIsArgs = List.replicate 7 (Line.args false) ∧
    render (Line.args false) = "graph_args --base 1000" := by
  refine ⟨?_, rfl⟩
  rw [configLines, List.filter_append]
  have h1 : configOnlyLines.filter lineIsArgs = List.replicate 7 (Line.args false) := by
    decide
  have h2 : (fetchLines data).filter lineIsArgs = [] := rfl
  by_cases h : env = some "1"
  · rw [if_pos h, h1, h2, List.append_nil]
  · rw [if_neg h, h1]
    rfl

/-- C5 is false on the code in one detail: the last group (`noise`) is not
followed by a trailing blank line — the last line of the value report is
the `amp` value line, rendering as `amp.value ...`, not a blank. -/
theorem fetch_last_line_not_blank :
    (fetchLines (fun _ => 0)).getLast? = some (Line.value "amp" 0) ∧
    some (Line.value "amp" 0) ≠ some Line.blank ∧
    render (Line.value "amp" 0) = "amp.value 0.00000000" := by
  exact ⟨rfl, by decide, by decide⟩

/-- C5 (amended): the value report consists of exactly 7 group headers in
the fixed order temperature, humidity, pressure, altitude, light, gas,
noise, each followed by one value line per member metric in the specified
member order; each of the first six groups is followed by a trailing blank
line, but the last group (`noise`) is not. -/
theorem fetch_output_structure (data : String → ℚ) :
    fetchLines data =
      [Line.graph "temperature",
       Line.value "temperature" (data "temperature"),
       Line.value "raw_temperature" (data "raw_temperature"),
       Line.value "cpu_temperature" (data "cpu_temperature"),
       Line.blank,
       Line.graph "humidity",
       Line.value "humidity" (data "humidity"),
       Line.value "raw_humidity" (data "raw_humidity"),
       Line.blank,
       Line.graph "pressure",
       Line.value "pressure" (data "pressure"),
       Line.blank,
       Line.graph "altitude",
       Line.value "altitude" (data "altitude"),
       Line.blank,
       Line.graph "light",
       Line.value "light" (data "light"),
       Line.blank,
       Line.graph "gas",
       Line.value "oxidising" (data "oxidising"),
       Line.value "reducing" (data "reducing"),
       Line.value "nh3" (data "nh3"),
       Line.blank,
       Line.graph "noise",
       Line.value "low" (data "low"),
       Line.value "mid" (data "mid"),
       Line.value "high" (data "high"),
       Line.value "amp" (data "amp")] ∧
    (fetchLines data).filter lineIsGraph =
      [Line.graph "temperature", Line.graph "humidity", Line.graph "pressure",
       Line.graph "altitude", Line.graph "light", Line.graph "gas",
       Line.graph "noise"] ∧
    (fetchLines data).getLast? = some (Line.value "amp" (data "amp")) := by
  exact ⟨rfl, rfl, rfl⟩

/-- C6: in config mode the output contains value lines if and only if the
MUNIN_CAP_DIRTYCONFIG environment variable equals the literal string "1";
when it does, the output is the full config block followed by a full
value-report pass in that order; otherwise it is only the configuration
lines, with no value line. -/
theorem config_value_lines_iff_dirtyconfig (env : Option String) (data : String → ℚ) :
    ((∃ l ∈ configLines env data, lineIsValue l = true) ↔ env = some "1") ∧
    (env = some "1" → configLines env data = configOnlyLines ++ fetchLines data) ∧
    (env ≠ some "1" → configLines env data = configOnlyLines ∧
      ∀ l ∈ configLines env data, lineIsValue l = false) := by
  have hcfg : ∀ l ∈ configOnlyLines, lineIsValue l = false := by decide
  refine ⟨⟨?_, ?_⟩, ?_, ?_⟩
  · rintro ⟨l, hl, hv⟩
    by_contra hne
    rw [configLines, if_neg hne, List.append_nil] at hl
    rw [hcfg l hl] at hv
    exact Bool.false_ne_true hv
  · intro h
    refine ⟨Line.value "temperature" (data "temperature"), ?_, rfl⟩
    rw [configLines, if_pos h]
    apply List.mem_append_right
    simp [fetchLines]
  · intro h
    rw [configLines, if_pos h]
  · intro h
    rw [configLines, if_neg h, List.append_nil]
    exact ⟨rfl, hcfg⟩

/-- C7: invoked with first positional argument `autoconf`, the entire
output is the single line `yes` (no sensing: no value or header line, and
the output does not depend on the Reading Set), and the exit code is 0. -/
theorem autoconf_prints_yes (prog : String) (rest : List String)
    (env : Option String) (data : String → ℚ) :
    main (prog :: "autoconf" :: rest) env data = [Line.text "yes"] ∧
    (main (prog :: "autoconf" :: rest) env data).map render = ["yes"] ∧
    (∀ l ∈ main (prog :: "autoconf" :: rest) env data,
      lineIsValue l = false ∧ lineIsGraph l = false) ∧
    exitCode = 0 := by
  have hm : main (prog :: "autoconf" :: rest) env data = [Line.text "yes"] := rfl
  refine ⟨hm, by rw [hm]; rfl, ?_, rfl⟩
  intro l hl
  rw [hm] at hl
  have hl' : l = Line.text "yes" := by simpa using hl
  rw [hl']
  exact ⟨rfl, rfl⟩

/-- C8: the process performs exactly one of three terminal behaviors,
selected solely by the first positional argument: `autoconf` prints the
capability line, `config` produces the config output, and any other
argument or no argument produces the value report; the selecting
conditions are mutually exclusive. -/
theorem dispatch_trichotomy (argv : List String) (env : Option String)
    (data : String → ℚ) :
    (arg1? argv = some "autoconf" → main argv env data = [Line.text "yes"]) ∧
    (arg1? argv = some "config" → main argv env data = configLines env data) ∧
    (arg1? argv ≠ some "autoconf" ∧ arg1? argv ≠ some "config" →
      main argv env data = fetchLines data) ∧
    ¬(arg1? argv = some "autoconf" ∧ arg1? argv = some "config") := by
  refine ⟨?_, ?_, ?_, ?_⟩
  · intro h
    rw [main, if_pos h]
  · intro h
    rw [main, if_neg (by rw [h]; simp), if_pos h]
  · rintro ⟨h1, h2⟩
    rw [main, if_neg h1, if_neg h2]
  · rintro ⟨h1, h2⟩
    rw [h1] at h2
    simp at h2

end Enviro
